import Mathlib

/-!
Verification of the R worker-process subsystem of MGET (GeoEco.R), a client
that supervises an out-of-process R interpreter and talks to it over an
HTTP RPC protocol. The definitions below are a shallow embedding of
src/GeoEco/R/_RWorkerProcess.py:

* the JSON dialect and the host value model, with the mongo timestamp
  envelope used by _MongoDateTimeEncoder and _MongoDateTimeDecoder;
* the atomic-timestamp marker logic of RWorkerProcess._SerializeValueToJSON;
* the response handling of RWorkerProcess._ProcessResponse;
* the session state machine: Start (including the readiness wait loop),
  Stop, _PollWorkerProcess, and the public mapping and Eval operations.

Timestamps are modelled as exact rational milliseconds since the UNIX
epoch. The Python implementation computes epoch milliseconds through IEEE
double arithmetic (datetime.timestamp() returns a float); that arithmetic
is idealized here as exact rational arithmetic, so sub-millisecond
floating-point rounding is outside the model. JSON numbers distinguish
integers from floats, as Python's json module does, and floats are also
modelled as exact rationals.
-/

/-- The JSON value model, as produced by Python's json module after parsing:
an object is the parsed dict, so its keys are distinct; a number is either an
int or a float. -/
inductive Json where
  | jnull
  | jbool (b : Bool)
  | jint (n : Int)
  | jfloat (q : ℚ)
  | jstr (s : String)
  | jarr (l : List Json)
  | jobj (m : List (String × Json))

/-- The host-side value model handled by the JSON channel of the codec:
None, bool, int, float, str, datetime (an absolute instant, held as rational
milliseconds since the UNIX epoch, UTC), list and dict. Dicts are modelled
as association lists with distinct keys, which is what Python dicts give. -/
inductive Value where
  | vnull
  | vbool (b : Bool)
  | vint (n : Int)
  | vfloat (q : ℚ)
  | vstr (s : String)
  | vtime (ms : ℚ)
  | vlist (l : List Value)
  | vmap (m : List (String × Value))

/-- Python's int() applied to a rational: truncation toward zero. -/
def pyTrunc (q : ℚ) : Int := q.num.tdiv q.den

mutual

/-- The encoder (json.dumps with _MongoDateTimeEncoder): scalars map to the
matching JSON scalars; a datetime maps to the mongo envelope, a single-key
object holding epoch milliseconds as an int, computed by
int(obj.timestamp() * 1000); lists and dicts are encoded elementwise. -/
def encode : Value → Json
  | .vnull => .jnull
  | .vbool b => .jbool b
  | .vint n => .jint n
  | .vfloat q => .jfloat q
  | .vstr s => .jstr s
  | .vtime ms => .jobj [("$date", .jint (pyTrunc ms))]
  | .vlist l => .jarr (encodeList l)
  | .vmap m => .jobj (encodeMap m)

/-- Elementwise encoding of a Python list (json.dumps walks it natively). -/
def encodeList : List Value → List Json
  | [] => []
  | v :: tl => encode v :: encodeList tl

/-- Elementwise encoding of a Python dict (json.dumps walks it natively). -/
def encodeMap : List (String × Value) → List (String × Json)
  | [] => []
  | (k, v) :: tl => (k, encode v) :: encodeMap tl

end

/-- The view Python's isinstance(x, (int, float)) takes of a decoded JSON
value, together with the number it denotes. A bool passes the check because
bool is a subtype of int in Python, and True / 1000. equals 0.001. Any
non-numeric value gives none. -/
def pyNumAsRat : Value → Option ℚ
  | .vint n => some (n : ℚ)
  | .vfloat q => some q
  | .vbool b => some (if b then 1 else 0)
  | _ => none

/-- The object_hook of _MongoDateTimeDecoder (_DecodeMongoDates): a decoded
dict with exactly one key, that key being the mongo key and its value passing
the isinstance((int, float)) check, becomes a datetime at that many
milliseconds (datetime.fromtimestamp(v / 1000., tz)); every other dict is
returned unchanged. -/
def decodeObjHook (m : List (String × Value)) : Value :=
  match m with
  | [(k, v)] =>
    if k = "$date" then
      match pyNumAsRat v with
      | some ms => .vtime ms
      | none => .vmap m
    else .vmap m
  | _ => .vmap m

/-- The parse_array hook of _MongoDateTimeDecoder (_UnboxMongoDates): a
decoded array holding exactly one datetime is unwrapped to the bare datetime;
every other array is returned as is. -/
def unboxMongoDates (l : List Value) : Value :=
  match l with
  | [.vtime t] => .vtime t
  | _ => .vlist l

mutual

/-- The decoder (json.loads with _MongoDateTimeDecoder): scalars map back to
host scalars, arrays are decoded elementwise and then pass through the
parse_array hook, objects are decoded elementwise and then pass through the
object_hook. -/
def decode : Json → Value
  | .jnull => .vnull
  | .jbool b => .vbool b
  | .jint n => .vint n
  | .jfloat q => .vfloat q
  | .jstr s => .vstr s
  | .jarr l => unboxMongoDates (decodeList l)
  | .jobj m => decodeObjHook (decodeMap m)

/-- Elementwise decoding of a JSON array, before the parse_array hook. -/
def decodeList : List Json → List Value
  | [] => []
  | j :: tl => decode j :: decodeList tl

/-- Elementwise decoding of a JSON object, before the object_hook. -/
def decodeMap : List (String × Json) → List (String × Value)
  | [] => []
  | (k, j) :: tl => (k, decode j) :: decodeMap tl

end

/-- Whether a decoded list is exactly one datetime, the shape the
parse_array hook unwraps. -/
def isSingletonTime : List Value → Bool
  | [.vtime _] => true
  | _ => false

/-- Whether a host dict has the mongo envelope shape: exactly one entry,
key the mongo key, value passing Python's (int, float) check (which a bool
also passes). Encoding and re-decoding such a dict collapses it to a
datetime. -/
def mongoShapeV : List (String × Value) → Bool
  | [(k, v)] => k == "$date" && (pyNumAsRat v).isSome
  | _ => false

mutual

/-- Values whose encoding decodes back to themselves: timestamps lie on
integer milliseconds (the wire holds whole milliseconds), no dict anywhere
inside has the mongo envelope shape, and no list anywhere inside is a
one-element datetime list (the parse_array hook would unwrap it). -/
def safe : Value → Bool
  | .vnull => true
  | .vbool _ => true
  | .vint _ => true
  | .vfloat _ => true
  | .vstr _ => true
  | .vtime ms => ms.den == 1
  | .vlist l => safeList l && !isSingletonTime l
  | .vmap m => safeMap m && !mongoShapeV m

/-- All members of a list are safe. -/
def safeList : List Value → Bool
  | [] => true
  | v :: tl => safe v && safeList tl

/-- All values of a dict are safe. -/
def safeMap : List (String × Value) → Bool
  | [] => true
  | (_, v) :: tl => safe v && safeMap tl

end

/-- isinstance(value, datetime.datetime). -/
def isDatetime : Value → Bool
  | .vtime _ => true
  | _ => false

/-- isinstance(value, (list, tuple)) and len(value) == 1 and
isinstance(value[0], datetime.datetime). -/
def isLen1DatetimeList : Value → Bool
  | .vlist [v] => isDatetime v
  | _ => false

/-- The per-entry test of the dict case of _SerializeValueToJSON: the entry
value is a datetime, or a one-element list or tuple holding a datetime. -/
def isDatetimeOrLen1List (v : Value) : Bool := isDatetime v || isLen1DatetimeList v

/-- Python dict merge of one extra key, as written in the source with
a double-splat of both dicts: an existing entry of that key keeps its
position but takes the new value; a fresh key is appended at the end. -/
def dictAddKey (m : List (String × Value)) (k : String) (v : Value) :
    List (String × Value) :=
  if m.any (fun p => p.1 == k) then
    m.map (fun p => if p.1 == k then (p.1, v) else p)
  else m ++ [(k, v)]

/-- The marker logic of RWorkerProcess._SerializeValueToJSON, applied to the
value being set before json.dumps: a bare datetime, or a one-element
list or tuple of a datetime, is replaced by a dict of the value under the
key "value" plus the key "RWorkerProcess_IsAtomicDatetime" set to True; a
dict all of whose values are datetimes or one-element datetime lists gets
the key "RWorkerProcess_IsDatetimeList" set to True merged into it; every
other value passes through unchanged. -/
def wrapAtomic (value : Value) : Value :=
  if isDatetime value then
    .vmap [("value", value), ("RWorkerProcess_IsAtomicDatetime", .vbool true)]
  else if isLen1DatetimeList value then
    .vmap [("value", value), ("RWorkerProcess_IsAtomicDatetime", .vbool true)]
  else
    match value with
    | .vmap m =>
      if m.all (fun p => isDatetimeOrLen1List p.2) then
        .vmap (dictAddKey m "RWorkerProcess_IsDatetimeList" (.vbool true))
      else value
    | _ => value

/-- RWorkerProcess._SerializeValueToJSON as called by setitem: the marker
logic applied to the value, the result wrapped in a dict under the key
"value" (so plumber binds it to the value parameter of the set endpoint)
and serialized with the mongo encoder. -/
def serializeValueToJSON (value : Value) : Json :=
  encode (.vmap [("value", wrapAtomic value)])

/-- The characters Python str.strip() removes, which are the characters of
CPython's Py_UNICODE_ISSPACE: tab through carriage return (0x09 to 0x0D,
vertical tab and form feed included), the separator controls 0x1C to 0x1F,
space, next line (0x85), no-break space (0xA0), ogham space mark (0x1680),
the fixed-width spaces 0x2000 to 0x200A, line separator (0x2028), paragraph
separator (0x2029), narrow no-break space (0x202F), medium mathematical
space (0x205F) and ideographic space (0x3000). -/
def pyIsSpace (c : Char) : Bool :=
  (0x09 ≤ c.toNat && c.toNat ≤ 0x0D) ||
  (0x1C ≤ c.toNat && c.toNat ≤ 0x1F) ||
  c.toNat = 0x20 || c.toNat = 0x85 || c.toNat = 0xA0 || c.toNat = 0x1680 ||
  (0x2000 ≤ c.toNat && c.toNat ≤ 0x200A) ||
  c.toNat = 0x2028 || c.toNat = 0x2029 || c.toNat = 0x202F ||
  c.toNat = 0x205F || c.toNat = 0x3000

/-- Python str.strip() with no arguments: the characters of
Py_UNICODE_ISSPACE removed from both ends. Defined over the character list
so that it is kernel-computable. -/
def pyStrip (s : String) : String :=
  String.mk (((s.data.dropWhile pyIsSpace).reverse.dropWhile
    pyIsSpace).reverse)

/-- The errors the client can raise, one constructor per distinct raise
site of _RWorkerProcess.py. Python raises them as ValueError,
SoftwareNotInstalledError or RuntimeError; constructors here separate the
raise sites so their messages and catchability can be told apart. -/
inductive RErr where
  | valueError (msg : String)
  | notInstalled (msg : String)
  | spawnFailure (msg : String)
  | startupTimeout
  | processExited (code : Int)
  | workerError (msg : String)
  | httpError (code : Nat) (reason : String)
  | jsonParseError
  | featherParseError
  | unknownContentType (ct : String)
  deriving DecidableEq

/-- The error taxonomy of the specification, as a classification of the
raise sites: argument validation, software-not-installed, startup failures,
unexpected worker exit, errors reported by R itself, and transport or
protocol failures of the HTTP exchange. -/
inductive ErrKind where
  | validation
  | notInstalled
  | startup
  | processExited
  | worker
  | transport
  deriving DecidableEq

/-- Which taxonomy kind each raise site belongs to. The generic non-200
raise of _ProcessResponse is a single site used for every status code that
is neither 200 nor a structured 500, so every such status, 401 included,
lands in the transport kind. -/
def RErr.kind : RErr → ErrKind
  | .valueError _ => .validation
  | .notInstalled _ => .notInstalled
  | .spawnFailure _ => .startup
  | .startupTimeout => .startup
  | .processExited _ => .processExited
  | .workerError _ => .worker
  | .httpError _ _ => .transport
  | .jsonParseError => .transport
  | .featherParseError => .transport
  | .unknownContentType _ => .transport

/-- A value returned by the worker: a scalar-channel JSON value, or a
tabular payload (feather), kept opaque here. -/
inductive RValue where
  | scalar (v : Value)
  | table

/-- An HTTP response as the client sees it: status code, reason phrase,
the body parsed as JSON when that parse succeeds, the Content-Type header,
and whether the feather parse of the body would succeed. -/
structure HttpResp where
  status : Nat
  reason : String
  body : Option Json
  contentType : Option String
  featherOk : Bool

/-- First binding of a key in a parsed JSON object. -/
def jlookup (k : String) : List (String × Json) → Option Json
  | [] => none
  | (k2, j) :: tl => if k2 = k then some j else jlookup k tl

/-- The structured-500 test of _ProcessResponse: status 500, body parses as
a JSON dict, and the dict holds a string under the key "message". Returns
that message. -/
def worker500Message (resp : HttpResp) : Option String :=
  if resp.status = 500 then
    match resp.body with
    | some (.jobj m) =>
      match jlookup "message" m with
      | some (.jstr msg) => some msg
      | _ => none
    | _ => none
  else none

/-- Whether _ProcessResponse logs an R call stack tree: only inside the
structured-500 branch, when the dict also holds a list under the key "cst".
Logging of the individual lines is below the granularity of this model. -/
def cstIsLogged (resp : HttpResp) : Bool :=
  (worker500Message resp).isSome &&
    (match resp.body with
     | some (.jobj m) =>
       match jlookup "cst" m with
       | some (.jarr _) => true
       | _ => false
     | _ => false)

/-- Result of _ProcessResponse: the returned value or the raised error,
plus whether an R call stack tree was logged. -/
structure ProcessedResponse where
  result : Except RErr (Option RValue)
  cstLogged : Bool

/-- RWorkerProcess._ProcessResponse. A structured 500 raises the
worker-side error carrying the R message. Any other non-200 status raises
the one generic RuntimeError naming the status code and reason. On 200:
nothing is parsed unless requested; with no Content-Type the body is
ignored; a JSON body is decoded with the mongo decoder (a failing parse
re-raises); a feather body is parsed as a table (a failing parse
re-raises); any other Content-Type raises the unknown-content-type
error. -/
def processResponse (parseReturnValue : Bool) (resp : HttpResp) :
    ProcessedResponse :=
  match worker500Message resp with
  | some msg => ⟨.error (.workerError msg), cstIsLogged resp⟩
  | none =>
    if resp.status ≠ 200 then ⟨.error (.httpError resp.status resp.reason), false⟩
    else if !parseReturnValue then ⟨.ok none, false⟩
    else
      match resp.contentType with
      | none => ⟨.ok none, false⟩
      | some ct =>
        if ct = "application/json" then
          match resp.body with
          | some j => ⟨.ok (some (.scalar (decode j))), false⟩
          | none => ⟨.error .jsonParseError, false⟩
        else if ct = "application/vnd.apache.arrow.file" ∨ ct = "application/x-feather" then
          if resp.featherOk then ⟨.ok (some .table), false⟩
          else ⟨.error .featherParseError, false⟩
        else ⟨.error (.unknownContentType ct), false⟩

/-- The client-visible state of an RWorkerProcess instance: the held child
process handle (by pid) and whether a requests.Session (the transport) is
open. Idle is the state with neither. -/
structure SessionState where
  workerProcess : Option Nat
  session : Bool
  deriving DecidableEq

/-- Result of an operation: a value, a raised error, or blocked forever
(the readiness wait observed neither readiness nor a timeout within the
modelled trace). -/
inductive Outcome (A : Type) where
  | ok (a : A)
  | err (e : RErr)
  | blocked

/-- One iteration of the readiness wait of Start: whether the readiness
event was observed set within this startup-timeout interval, and whether
the installing-packages event was set when the interval elapsed. -/
abbrev WaitObs := Bool × Bool

/-- Result of the readiness wait loop. -/
inductive WaitOutcome where
  | ready
  | timedOut
  | stillWaiting
  deriving DecidableEq

/-- The readiness wait loop of Start (the while loop over
WorkerProcessIsReady.wait(startupTimeout)): if the event is observed set,
the loop exits ready; if an interval elapses with the installing flag set,
the wait is simply retried; if an interval elapses with the installing flag
clear, the startup-timeout error is raised. An exhausted trace means the
loop is still waiting. -/
def startWaitLoop : List WaitObs → WaitOutcome
  | [] => .stillWaiting
  | (readySet, installing) :: rest =>
    if readySet then .ready
    else if installing then startWaitLoop rest
    else .timedOut

/-- How the environment responds to spawning the worker: Rscript could not
be located (or libsodium is missing), the spawn itself or the log-thread
setup failed, or a child process was started. -/
inductive SpawnOutcome where
  | notFound (msg : String)
  | failed (msg : String)
  | spawned (pid : Nat)

/-- Environment of one Start call: the spawn result and the readiness
observations. -/
structure StartEnv where
  spawn : SpawnOutcome
  waitTrace : List WaitObs

/-- RWorkerProcess.Start. A held process handle returns immediately with no
state change. Otherwise a requests.Session is opened, the worker is
spawned (a failure of locating, spawning or thread setup closes the session
again and re-raises), and the readiness wait runs; a timeout with the
installing flag clear raises the startup-timeout RuntimeError, and does not
tear anything down, since the raise happens after the lock block with the
process and session still held. -/
def startSession (st : SessionState) (env : StartEnv) :
    SessionState × Outcome Unit :=
  match st.workerProcess with
  | some _ => (st, .ok ())
  | none =>
    match env.spawn with
    | .notFound msg => ({ st with session := false }, .err (.notInstalled msg))
    | .failed msg => ({ st with session := false }, .err (.spawnFailure msg))
    | .spawned pid =>
      let st2 : SessionState := { workerProcess := some pid, session := true }
      match startWaitLoop env.waitTrace with
      | .ready => (st2, .ok ())
      | .timedOut => (st2, .err .startupTimeout)
      | .stillWaiting => (st2, .blocked)

/-- RWorkerProcess._PollWorkerProcess: with no held handle, nothing
happens; with a handle, the child is polled, and a recorded exit code
raises the worker-exited-unexpectedly RuntimeError. The pollExit argument
is the poll observation: none when the child is still running, and also
when poll itself raised, which the source logs and treats as running. -/
def pollWorkerProcess (st : SessionState) (pollExit : Option Int) :
    Except RErr Unit :=
  match st.workerProcess with
  | none => .ok ()
  | some _ =>
    match pollExit with
    | none => .ok ()
    | some c => .error (.processExited c)

/-- How the wait for child exit inside Stop ends: natural exit with a code,
subprocess.TimeoutExpired, or some other exception from wait(). -/
inductive StopWaitResult where
  | exited (code : Int)
  | timedOut
  | waitFailed (msg : String)
  deriving DecidableEq

/-- Environment of one Stop call: whether the shutdown POST goes through
(its failure is ignored either way), how the wait ends, and whether kill()
and Session.close() succeed (their failures are only logged). -/
structure StopEnv where
  shutdownPostOk : Bool
  wait : StopWaitResult
  killOk : Bool
  closeOk : Bool

/-- The observable actions Stop takes, in order. -/
inductive StopAction where
  | postShutdown
  | waitedForExit
  | killed
  | closedTransport
  deriving DecidableEq

/-- RWorkerProcess.Stop. With no held handle it returns at once. Otherwise
it posts the shutdown RPC inside a bare try/except (any transport error is
swallowed), waits up to the timeout for exit, kills the child if the wait
timed out or failed (a kill failure is only logged), then unconditionally
clears the process handle, closes the transport (a close failure is
swallowed) and clears it. No path raises. -/
def stopSession (st : SessionState) (env : StopEnv) :
    SessionState × List StopAction × Outcome Unit :=
  match st.workerProcess with
  | none => (st, [], .ok ())
  | some _ =>
    let needToKill : Bool :=
      match env.wait with
      | .exited _ => false
      | _ => true
    let acts := [StopAction.postShutdown, StopAction.waitedForExit] ++
      (if needToKill then [StopAction.killed] else []) ++
      [StopAction.closedTransport]
    (⟨none, false⟩, acts, .ok ())

/-- A key argument as Python sees it: a str, or some non-str object. -/
inductive PyKey where
  | str (s : String)
  | nonString

/-- An HTTP request issued by an operation: method, endpoint, the name
query parameter, and the JSON body when one is sent (the feather upload of
a tabular set carries no JSON body). -/
structure Request where
  method : String
  endpoint : String
  name : Option String
  jsonBody : Option Json

/-- Environment of one public operation: the Start environment should lazy
activation be needed, the poll observation, and the worker's response. -/
structure OpEnv where
  start : StartEnv
  pollExit : Option Int
  resp : HttpResp

/-- The message of the key validation ValueError shared by the mapping
operations. -/
def keyErrMsg : String := "key must be a str with length > 0"

/-- RWorkerProcess.__getitem__: validate the key (raising ValueError before
any other effect), lazily Start, poll liveness, then POST the get endpoint
with the stripped key as the name parameter and parse the response. -/
def getitem (st : SessionState) (env : OpEnv) (key : PyKey) :
    SessionState × List Request × Outcome (Option RValue) :=
  match key with
  | .nonString => (st, [], .err (.valueError keyErrMsg))
  | .str s =>
    if (pyStrip s).length = 0 then (st, [], .err (.valueError keyErrMsg))
    else
      match startSession st env.start with
      | (st2, .ok _) =>
        match pollWorkerProcess st2 env.pollExit with
        | .error e => (st2, [], .err e)
        | .ok _ =>
          let req : Request := ⟨"POST", "get", some (pyStrip s), none⟩
          match (processResponse true env.resp).result with
          | .ok v => (st2, [req], .ok v)
          | .error e => (st2, [req], .err e)
      | (st2, .err e) => (st2, [], .err e)
      | (st2, .blocked) => (st2, [], .blocked)

/-- RWorkerProcess.__setitem__: validate the key, lazily Start, poll
liveness, then PUT the set endpoint with the stripped key as the name
parameter; a pyarrow Table or pandas DataFrame goes as a feather upload,
anything else as the JSON serialization, and the response body is not
parsed. -/
def setitem (st : SessionState) (env : OpEnv) (key : PyKey) (value : RValue) :
    SessionState × List Request × Outcome Unit :=
  match key with
  | .nonString => (st, [], .err (.valueError keyErrMsg))
  | .str s =>
    if (pyStrip s).length = 0 then (st, [], .err (.valueError keyErrMsg))
    else
      match startSession st env.start with
      | (st2, .ok _) =>
        match pollWorkerProcess st2 env.pollExit with
        | .error e => (st2, [], .err e)
        | .ok _ =>
          let req : Request :=
            match value with
            | .table => ⟨"PUT", "set", some (pyStrip s), none⟩
            | .scalar v => ⟨"PUT", "set", some (pyStrip s), some (serializeValueToJSON v)⟩
          match (processResponse false env.resp).result with
          | .ok _ => (st2, [req], .ok ())
          | .error e => (st2, [req], .err e)
      | (st2, .err e) => (st2, [], .err e)
      | (st2, .blocked) => (st2, [], .blocked)

/-- RWorkerProcess.__delitem__: validate the key, lazily Start, poll
liveness, then DELETE the delete endpoint with the stripped key as the name
parameter; the response body is not parsed. -/
def delitem (st : SessionState) (env : OpEnv) (key : PyKey) :
    SessionState × List Request × Outcome Unit :=
  match key with
  | .nonString => (st, [], .err (.valueError keyErrMsg))
  | .str s =>
    if (pyStrip s).length = 0 then (st, [], .err (.valueError keyErrMsg))
    else
      match startSession st env.start with
      | (st2, .ok _) =>
        match pollWorkerProcess st2 env.pollExit with
        | .error e => (st2, [], .err e)
        | .ok _ =>
          let req : Request := ⟨"DELETE", "delete", some (pyStrip s), none⟩
          match (processResponse false env.resp).result with
          | .ok _ => (st2, [req], .ok ())
          | .error e => (st2, [req], .err e)
      | (st2, .err e) => (st2, [], .err e)
      | (st2, .blocked) => (st2, [], .blocked)

/-- RWorkerProcess._GetVariableNames, the body of len() and iteration:
lazily Start, poll liveness, then POST the list endpoint and parse the
response. -/
def listNames (st : SessionState) (env : OpEnv) :
    SessionState × List Request × Outcome (Option RValue) :=
  match startSession st env.start with
  | (st2, .ok _) =>
    match pollWorkerProcess st2 env.pollExit with
    | .error e => (st2, [], .err e)
    | .ok _ =>
      let req : Request := ⟨"POST", "list", none, none⟩
      match (processResponse true env.resp).result with
      | .ok v => (st2, [req], .ok v)
      | .error e => (st2, [req], .err e)
  | (st2, .err e) => (st2, [], .err e)
  | (st2, .blocked) => (st2, [], .blocked)

/-- RWorkerProcess.Eval: lazily Start, poll liveness, then POST the eval
endpoint with the expression in the JSON body and parse the response. -/
def evalOp (st : SessionState) (env : OpEnv) (expr : String) :
    SessionState × List Request × Outcome (Option RValue) :=
  match startSession st env.start with
  | (st2, .ok _) =>
    match pollWorkerProcess st2 env.pollExit with
    | .error e => (st2, [], .err e)
    | .ok _ =>
      let req : Request := ⟨"POST", "eval", none, some (.jobj [("expr", .jstr expr)])⟩
      match (processResponse true env.resp).result with
      | .ok v => (st2, [req], .ok v)
      | .error e => (st2, [req], .err e)
  | (st2, .err e) => (st2, [], .err e)
  | (st2, .blocked) => (st2, [], .blocked)

/-- Whether a parsed JSON object is the raw mongo envelope: exactly one
entry, key the mongo key, value an int, float or bool literal (the decoded
forms of exactly these literals pass Python's (int, float) check). -/
def mongoShapeJ : List (String × Json) → Bool
  | [(k, j)] =>
    k == "$date" &&
      (match j with
       | .jint _ => true
       | .jfloat _ => true
       | .jbool _ => true
       | _ => false)
  | _ => false

/-- A list that is not a single datetime passes through the parse_array
hook unchanged. -/
theorem unboxMongoDates_eq_of_not_singleton (l : List Value)
    (h : isSingletonTime l = false) : unboxMongoDates l = .vlist l := by
  match l with
  | [] => rfl
  | [v] =>
    cases v <;> first | rfl | simp [isSingletonTime] at h
  | a :: b :: tl => cases a <;> rfl

/-- The parse_array hook never returns a numeric value. -/
theorem pyNumAsRat_unboxMongoDates (l : List Value) :
    pyNumAsRat (unboxMongoDates l) = none := by
  unfold unboxMongoDates
  split
  · rfl
  · rfl

/-- The object_hook never returns a numeric value. -/
theorem pyNumAsRat_decodeObjHook (m : List (String × Value)) :
    pyNumAsRat (decodeObjHook m) = none := by
  unfold decodeObjHook
  split
  · split
    · split
      · rfl
      · rfl
    · rfl
  · rfl

/-- A dict that is not mongo-shaped passes through the object_hook
unchanged. -/
theorem decodeObjHook_eq_of_not_mongo (m : List (String × Value))
    (h : mongoShapeV m = false) : decodeObjHook m = .vmap m := by
  match m with
  | [] => rfl
  | [(k, v)] =>
    simp only [mongoShapeV, Bool.and_eq_false_iff] at h
    by_cases hk : k = "$date"
    · subst hk
      rcases h with h | h
      · simp at h
      · have hv : pyNumAsRat v = none := by
          cases hvv : pyNumAsRat v
          · rfl
          · rw [hvv] at h
            simp at h
        simp [decodeObjHook, hv]
    · simp [decodeObjHook, hk]
  | p1 :: p2 :: tl => rfl

/-- The object_hook turned into a statement about raw JSON objects: the
mongo-shape test on the decoded entries equals the raw mongo-envelope
test. -/
theorem mongoShapeV_decodeMap (m : List (String × Json)) :
    mongoShapeV (decodeMap m) = mongoShapeJ m := by
  match m with
  | [] => rfl
  | [(k, j)] =>
    simp only [decodeMap, mongoShapeV, mongoShapeJ]
    congr 1
    cases j with
    | jnull => rfl
    | jbool b => rfl
    | jint n => rfl
    | jfloat q => rfl
    | jstr s => rfl
    | jarr l =>
      rw [show decode (Json.jarr l) = unboxMongoDates (decodeList l) from rfl,
        pyNumAsRat_unboxMongoDates]
      rfl
    | jobj mm =>
      rw [show decode (Json.jobj mm) = decodeObjHook (decodeMap mm) from rfl,
        pyNumAsRat_decodeObjHook]
      rfl
  | p1 :: p2 :: tl =>
    obtain ⟨k1, j1⟩ := p1
    obtain ⟨k2, j2⟩ := p2
    rfl

/-- C3: a decoded JSON array holding exactly one decoded Timestamp is
unwrapped to the bare Timestamp, and every other array, whatever its
length, is returned as the list of its decoded elements. -/
theorem c3_array_unwrap (l : List Json) :
    (∀ t, decodeList l = [Value.vtime t] → decode (.jarr l) = Value.vtime t) ∧
    (isSingletonTime (decodeList l) = false →
      decode (.jarr l) = Value.vlist (decodeList l)) := by
  constructor
  · intro t ht
    simp only [decode]
    rw [ht]
    rfl
  · intro h
    simp only [decode]
    exact unboxMongoDates_eq_of_not_singleton _ h

/-- C3 witness: a one-element array holding a mongo envelope decodes to the
bare Timestamp, and a two-element int array decodes to itself. -/
theorem c3_witness :
    decode (Json.jarr [Json.jobj [("$date", Json.jint 7)]]) =
      Value.vtime ((7 : Int) : ℚ) ∧
    decode (Json.jarr [Json.jint 1, Json.jint 2]) =
      Value.vlist [Value.vint 1, Value.vint 2] :=
  ⟨(c3_array_unwrap [Json.jobj [("$date", Json.jint 7)]]).1 _ rfl,
   (c3_array_unwrap [Json.jint 1, Json.jint 2]).2 rfl⟩

/-- C10 counterexample: the claim asserts that only an int or float under
the mongo key converts to a Timestamp, but Python bools pass the
isinstance((int, float)) check, so the object mapping the mongo key to true
decodes to the Timestamp at one millisecond, not to a plain map. -/
theorem c10_counterexample :
    decode (Json.jobj [("$date", Json.jbool true)]) = Value.vtime 1 ∧
    decode (Json.jobj [("$date", Json.jbool true)]) ≠
      Value.vmap [("$date", Value.vbool true)] := by
  refine ⟨rfl, ?_⟩
  rw [show decode (Json.jobj [("$date", Json.jbool true)]) = Value.vtime 1 from rfl]
  simp

/-- C10 (amended): a decoded JSON object becomes a Timestamp exactly when it
has exactly one key, that key is the mongo key, and its value is an int, a
float, or a bool (booleans being ints in Python, so true reads as one
millisecond); every other object is decoded as a plain map of its decoded
entries. -/
theorem c10_object_decode (m : List (String × Json)) (n : Int) (q : ℚ) (b : Bool) :
    (m = [("$date", Json.jint n)] → decode (.jobj m) = Value.vtime (n : ℚ)) ∧
    (m = [("$date", Json.jfloat q)] → decode (.jobj m) = Value.vtime q) ∧
    (m = [("$date", Json.jbool b)] →
      decode (.jobj m) = Value.vtime (if b then 1 else 0)) ∧
    (mongoShapeJ m = false → decode (.jobj m) = Value.vmap (decodeMap m)) := by
  refine ⟨?_, ?_, ?_, ?_⟩
  · intro hm
    subst hm
    rfl
  · intro hm
    subst hm
    rfl
  · intro hm
    subst hm
    rfl
  · intro h
    simp only [decode]
    refine decodeObjHook_eq_of_not_mongo _ ?_
    rw [mongoShapeV_decodeMap]
    exact h

/-- C10 witness: the amended object rule applied to an int envelope, a
float envelope, and an object under a different key. -/
theorem c10_witness :
    decode (Json.jobj [("$date", Json.jint 9)]) = Value.vtime ((9 : Int) : ℚ) ∧
    decode (Json.jobj [("$date", Json.jfloat (1 / 2))]) = Value.vtime (1 / 2) ∧
    decode (Json.jobj [("count", Json.jint 9)]) =
      Value.vmap [("count", Value.vint 9)] :=
  ⟨(c10_object_decode [("$date", Json.jint 9)] 9 0 true).1 rfl,
   (c10_object_decode [("$date", Json.jfloat (1 / 2))] 9 (1 / 2) true).2.1 rfl,
   (c10_object_decode [("count", Json.jint 9)] 9 0 true).2.2.2 rfl⟩

/-- C2 counterexample: the claim asserts that a map all of whose values are
Timestamps is wrapped as a marker object of the form with the key "value"
and the atomic marker key set to true, but the source instead merges the
distinct key "RWorkerProcess_IsDatetimeList" into the map itself. -/
theorem c2_counterexample :
    wrapAtomic (Value.vmap [("a", Value.vtime 0)]) =
      Value.vmap [("a", Value.vtime 0),
        ("RWorkerProcess_IsDatetimeList", Value.vbool true)] ∧
    wrapAtomic (Value.vmap [("a", Value.vtime 0)]) ≠
      Value.vmap [("value", Value.vmap [("a", Value.vtime 0)]),
        ("RWorkerProcess_IsAtomicDatetime", Value.vbool true)] := by
  refine ⟨rfl, ?_⟩
  rw [show wrapAtomic (Value.vmap [("a", Value.vtime 0)]) =
    Value.vmap [("a", Value.vtime 0),
      ("RWorkerProcess_IsDatetimeList", Value.vbool true)] from rfl]
  simp

/-- C2 (amended): before transmission the Set-path encoder wraps a bare
Timestamp, or a one-element list of a Timestamp, as a dict holding the value
under the key "value" plus the key "RWorkerProcess_IsAtomicDatetime" set to
true; a Map all of whose values are Timestamps or one-element Timestamp
lists instead has the distinct key "RWorkerProcess_IsDatetimeList" set to
true merged into the map itself (appended when not already a key); every
other top-level value is transmitted unaltered. -/
theorem c2_atomic_marker (v : Value) (m : List (String × Value)) :
    ((isDatetime v || isLen1DatetimeList v) = true →
      wrapAtomic v = Value.vmap [("value", v),
        ("RWorkerProcess_IsAtomicDatetime", Value.vbool true)]) ∧
    (m.all (fun p => isDatetimeOrLen1List p.2) = true →
      m.all (fun p => p.1 != "RWorkerProcess_IsDatetimeList") = true →
      wrapAtomic (Value.vmap m) =
        Value.vmap (m ++ [("RWorkerProcess_IsDatetimeList", Value.vbool true)])) ∧
    (isDatetime v = false → isLen1DatetimeList v = false →
      (∀ m2, v = Value.vmap m2 →
        m2.all (fun p => isDatetimeOrLen1List p.2) = false) →
      wrapAtomic v = v) := by
  refine ⟨?_, ?_, ?_⟩
  · intro h
    cases hd : isDatetime v
    · have hl : isLen1DatetimeList v = true := by simpa [hd] using h
      simp [wrapAtomic, hd, hl]
    · simp [wrapAtomic, hd]
  · intro hall hnk
    have hany : m.any (fun p => p.1 == "RWorkerProcess_IsDatetimeList") = false := by
      rw [List.any_eq_false]
      intro p hp
      have hb := List.all_eq_true.mp hnk p hp
      simpa using hb
    simp [wrapAtomic, isDatetime, isLen1DatetimeList, hall, dictAddKey, hany]
  · intro hd hl hm
    cases v with
    | vmap m2 => simp [wrapAtomic, hd, hl, hm m2 rfl]
    | vnull => simp [wrapAtomic, hd, hl]
    | vbool b => simp [wrapAtomic, hd, hl]
    | vint n => simp [wrapAtomic, hd, hl]
    | vfloat q => simp [wrapAtomic, hd, hl]
    | vstr s => simp [wrapAtomic, hd, hl]
    | vtime ms => simp [wrapAtomic, hd, hl]
    | vlist l => simp [wrapAtomic, hd, hl]

/-- C2 witness: the amended marker rule applied to a bare timestamp, a map
of one timestamp value, and a plain int. -/
theorem c2_witness :
    wrapAtomic (Value.vtime 0) =
      Value.vmap [("value", Value.vtime 0),
        ("RWorkerProcess_IsAtomicDatetime", Value.vbool true)] ∧
    wrapAtomic (Value.vmap [("x", Value.vtime 1)]) =
      Value.vmap ([("x", Value.vtime 1)] ++
        [("RWorkerProcess_IsDatetimeList", Value.vbool true)]) ∧
    wrapAtomic (Value.vint 7) = Value.vint 7 :=
  ⟨(c2_atomic_marker (Value.vtime 0) []).1 rfl,
   (c2_atomic_marker Value.vnull [("x", Value.vtime 1)]).2.1 rfl rfl,
   (c2_atomic_marker (Value.vint 7) []).2.2 rfl rfl (fun _ hm => nomatch hm)⟩

/-- C4: one pass of the readiness wait: an interval that elapses with the
installing flag set retries the wait, an interval that elapses with the
flag clear raises the startup-timeout error, an interval in which the
readiness flag is observed exits ready, and no run that only ever sees
elapsed intervals with the installing flag set reaches the timeout error,
however long. -/
theorem c4_startup_wait (rest : List WaitObs) (n : Nat) :
    startWaitLoop ((false, true) :: rest) = startWaitLoop rest ∧
    startWaitLoop ((false, false) :: rest) = .timedOut ∧
    (∀ i, startWaitLoop ((true, i) :: rest) = .ready) ∧
    startWaitLoop (List.replicate n (false, true)) = .stillWaiting := by
  refine ⟨rfl, rfl, fun i => rfl, ?_⟩
  induction n with
  | zero => rfl
  | succ k ih => simpa [List.replicate_succ, startWaitLoop] using ih

/-- C5: with a held process handle, every public operation (get, set,
delete, the list call behind len and iteration, and Eval) polls liveness
right after the no-op lazy Start, and an observed exit code makes it raise
the worker-exited error, a kind distinct from transport errors, issuing no
request and leaving the state, the held handle included, unchanged. -/
theorem c5_liveness (st : SessionState) (env : OpEnv) (s : String) (pid : Nat)
    (c : Int) (v : RValue) (expr : String)
    (hwp : st.workerProcess = some pid) (hpoll : env.pollExit = some c)
    (hs : (pyStrip s).length ≠ 0) :
    getitem st env (.str s) = (st, [], .err (.processExited c)) ∧
    setitem st env (.str s) v = (st, [], .err (.processExited c)) ∧
    delitem st env (.str s) = (st, [], .err (.processExited c)) ∧
    listNames st env = (st, [], .err (.processExited c)) ∧
    evalOp st env expr = (st, [], .err (.processExited c)) ∧
    (RErr.processExited c).kind ≠ ErrKind.transport := by
  have hstart : startSession st env.start = (st, .ok ()) := by
    simp [startSession, hwp]
  have hpollr : pollWorkerProcess st env.pollExit = .error (.processExited c) := by
    simp [pollWorkerProcess, hwp, hpoll]
  refine ⟨?_, ?_, ?_, ?_, ?_, by simp [RErr.kind]⟩
  · simp [getitem, hstart, hpollr, hs]
  · simp [setitem, hstart, hpollr, hs]
  · simp [delitem, hstart, hpollr, hs]
  · simp [listNames, hstart, hpollr]
  · simp [evalOp, hstart, hpollr]

/-- C5 witness: the liveness theorem applied to a session holding pid 1
whose child is observed to have exited with code 9. -/
theorem c5_witness :
    getitem ⟨some 1, true⟩
      ⟨⟨.spawned 1, []⟩, some 9, ⟨200, "OK", none, none, false⟩⟩ (.str "x") =
      (⟨some 1, true⟩, [], .err (.processExited 9)) ∧
    evalOp ⟨some 1, true⟩
      ⟨⟨.spawned 1, []⟩, some 9, ⟨200, "OK", none, none, false⟩⟩ "1+1" =
      (⟨some 1, true⟩, [], .err (.processExited 9)) :=
  ⟨(c5_liveness ⟨some 1, true⟩
      ⟨⟨.spawned 1, []⟩, some 9, ⟨200, "OK", none, none, false⟩⟩ "x" 1 9
      .table "1+1" rfl rfl (by decide)).1,
   (c5_liveness ⟨some 1, true⟩
      ⟨⟨.spawned 1, []⟩, some 9, ⟨200, "OK", none, none, false⟩⟩ "x" 1 9
      .table "1+1" rfl rfl (by decide)).2.2.2.2.1⟩

/-- C6 counterexample: the claim asserts a distinct Unauthorized error
kind for HTTP 401, but the source has no 401 branch: a 401 response is
raised by the same generic non-200 raise site as any other transport
failure, for example 404, so the two carry the same kind. -/
theorem c6_counterexample :
    (processResponse true ⟨401, "Unauthorized", none, none, false⟩).result =
      .error (.httpError 401 "Unauthorized") ∧
    (processResponse true ⟨404, "Not Found", none, none, false⟩).result =
      .error (.httpError 404 "Not Found") ∧
    (RErr.httpError 401 "Unauthorized").kind = (RErr.httpError 404 "Not Found").kind :=
  ⟨rfl, rfl, rfl⟩

/-- C6 (amended): an HTTP 500 whose body is a JSON object holding a string
message field is surfaced as the worker-side error kind, distinct from the
transport kind, carrying the worker's message, and a call-stack list in the
body is logged; every other non-200 status, HTTP 401 included, is surfaced
through the one generic transport error carrying the status code and
reason, with no distinct Unauthorized kind. -/
theorem c6_response_errors (resp : HttpResp) (p : Bool)
    (m : List (String × Json)) (msg : String) :
    (resp.status = 500 → resp.body = some (.jobj m) →
      jlookup "message" m = some (.jstr msg) →
      (processResponse p resp).result = .error (.workerError msg) ∧
      (RErr.workerError msg).kind ≠ ErrKind.transport) ∧
    (resp.status = 500 → resp.body = some (.jobj m) →
      jlookup "message" m = some (.jstr msg) →
      (∃ l, jlookup "cst" m = some (.jarr l)) →
      (processResponse p resp).cstLogged = true) ∧
    (resp.status ≠ 200 → worker500Message resp = none →
      (processResponse p resp).result = .error (.httpError resp.status resp.reason) ∧
      (RErr.httpError resp.status resp.reason).kind = ErrKind.transport) := by
  refine ⟨?_, ?_, ?_⟩
  · intro h500 hbody hmsg
    have hw : worker500Message resp = some msg := by
      simp [worker500Message, h500, hbody, hmsg]
    exact ⟨by simp [processResponse, hw], by simp [RErr.kind]⟩
  · intro h500 hbody hmsg hcst
    obtain ⟨l, hl⟩ := hcst
    have hw : worker500Message resp = some msg := by
      simp [worker500Message, h500, hbody, hmsg]
    simp [processResponse, hw, cstIsLogged, hbody, hl]
  · intro h200 hw
    refine ⟨?_, rfl⟩
    simp [processResponse, hw, h200]

/-- C6 witness: a structured 500 with message and call stack surfaces the
worker error with the call stack logged, and a 503 surfaces the generic
transport error. -/
theorem c6_witness :
    (processResponse true ⟨500, "Internal Server Error",
        some (.jobj [("message", .jstr "boom"), ("cst", .jarr [])]),
        none, false⟩).result = .error (.workerError "boom") ∧
    (processResponse true ⟨500, "Internal Server Error",
        some (.jobj [("message", .jstr "boom"), ("cst", .jarr [])]),
        none, false⟩).cstLogged = true ∧
    (processResponse true ⟨503, "Service Unavailable", none, none, false⟩).result =
      .error (.httpError 503 "Service Unavailable") :=
  ⟨((c6_response_errors ⟨500, "Internal Server Error",
      some (.jobj [("message", .jstr "boom"), ("cst", .jarr [])]), none, false⟩
      true [("message", .jstr "boom"), ("cst", .jarr [])] "boom").1 rfl rfl rfl).1,
   (c6_response_errors ⟨500, "Internal Server Error",
      some (.jobj [("message", .jstr "boom"), ("cst", .jarr [])]), none, false⟩
      true [("message", .jstr "boom"), ("cst", .jarr [])] "boom").2.1 rfl rfl rfl ⟨[], rfl⟩,
   ((c6_response_errors ⟨503, "Service Unavailable", none, none, false⟩
      true [] "x").2.2 (by decide) rfl).1⟩

/-- C7: with a held process handle, Stop posts the shutdown RPC whatever
becomes of it, kills the child when the exit wait times out and not when
the child exits naturally, never raises whatever the environment does, and
always ends with the handle cleared, the transport closed and the session
flag cleared. -/
theorem c7_stop_semantics (st : SessionState) (env : StopEnv) (pid : Nat) (c : Int)
    (hwp : st.workerProcess = some pid) :
    (stopSession st env).2.2 = .ok () ∧
    StopAction.postShutdown ∈ (stopSession st env).2.1 ∧
    (env.wait = .timedOut → StopAction.killed ∈ (stopSession st env).2.1) ∧
    (env.wait = .exited c → ¬ StopAction.killed ∈ (stopSession st env).2.1) ∧
    (stopSession st env).1.workerProcess = none ∧
    (stopSession st env).1.session = false ∧
    StopAction.closedTransport ∈ (stopSession st env).2.1 := by
  obtain ⟨po, w, ko, co⟩ := env
  cases w <;> simp [stopSession, hwp]

/-- C7 witness: Stop applied to a held handle, once with a timing-out wait
(the child is killed) and once with a natural exit (it is not). -/
theorem c7_witness :
    (stopSession ⟨some 3, true⟩ ⟨true, .timedOut, true, true⟩).2.2 = .ok () ∧
    StopAction.postShutdown ∈ (stopSession ⟨some 3, true⟩ ⟨true, .timedOut, true, true⟩).2.1 ∧
    StopAction.killed ∈ (stopSession ⟨some 3, true⟩ ⟨true, .timedOut, true, true⟩).2.1 ∧
    (stopSession ⟨some 3, true⟩ ⟨true, .timedOut, true, true⟩).1.workerProcess = none ∧
    (stopSession ⟨some 3, true⟩ ⟨true, .timedOut, true, true⟩).1.session = false ∧
    ¬ StopAction.killed ∈ (stopSession ⟨some 3, true⟩ ⟨true, .exited 0, true, true⟩).2.1 :=
  ⟨(c7_stop_semantics ⟨some 3, true⟩ ⟨true, .timedOut, true, true⟩ 3 0 rfl).1,
   (c7_stop_semantics ⟨some 3, true⟩ ⟨true, .timedOut, true, true⟩ 3 0 rfl).2.1,
   (c7_stop_semantics ⟨some 3, true⟩ ⟨true, .timedOut, true, true⟩ 3 0 rfl).2.2.1 rfl,
   (c7_stop_semantics ⟨some 3, true⟩ ⟨true, .timedOut, true, true⟩ 3 0 rfl).2.2.2.2.1,
   (c7_stop_semantics ⟨some 3, true⟩ ⟨true, .timedOut, true, true⟩ 3 0 rfl).2.2.2.2.2.1,
   (c7_stop_semantics ⟨some 3, true⟩ ⟨true, .exited 0, true, true⟩ 3 0 rfl).2.2.2.1 rfl⟩

/-- C8: from any reachable state (one where a missing handle means a closed
transport), a first Stop returns without error and leaves the Idle state of
no process and no transport, a second Stop does the same, and Start with a
handle already held returns without touching the state. -/
theorem c8_idempotence (st : SessionState) (env1 env2 : StopEnv) (env3 : StartEnv)
    (pid : Nat) (hinv : st.workerProcess = none → st.session = false) :
    (stopSession st env1).2.2 = .ok () ∧
    (stopSession st env1).1 = ⟨none, false⟩ ∧
    (stopSession (stopSession st env1).1 env2).2.2 = .ok () ∧
    (stopSession (stopSession st env1).1 env2).1 = ⟨none, false⟩ ∧
    (st.workerProcess = some pid → startSession st env3 = (st, .ok ())) := by
  obtain ⟨w, se⟩ := st
  cases w with
  | none =>
    have hs : se = false := hinv rfl
    subst hs
    exact ⟨rfl, rfl, rfl, rfl, fun h => nomatch h⟩
  | some p =>
    exact ⟨rfl, rfl, rfl, rfl, fun _ => rfl⟩

/-- C8 witness: two successive Stops from a running session land in Idle
twice, and Start on the running session is a no-op. -/
theorem c8_witness :
    (stopSession ⟨some 5, true⟩ ⟨true, .timedOut, true, true⟩).1 = ⟨none, false⟩ ∧
    (stopSession (stopSession ⟨some 5, true⟩ ⟨true, .timedOut, true, true⟩).1
      ⟨true, .exited 0, true, true⟩).1 = ⟨none, false⟩ ∧
    startSession ⟨some 5, true⟩ ⟨.spawned 9, []⟩ = (⟨some 5, true⟩, .ok ()) :=
  ⟨(c8_idempotence ⟨some 5, true⟩ ⟨true, .timedOut, true, true⟩
      ⟨true, .exited 0, true, true⟩ ⟨.spawned 9, []⟩ 5 (fun h => nomatch h)).2.1,
   (c8_idempotence ⟨some 5, true⟩ ⟨true, .timedOut, true, true⟩
      ⟨true, .exited 0, true, true⟩ ⟨.spawned 9, []⟩ 5 (fun h => nomatch h)).2.2.2.1,
   (c8_idempotence ⟨some 5, true⟩ ⟨true, .timedOut, true, true⟩
      ⟨true, .exited 0, true, true⟩ ⟨.spawned 9, []⟩ 5 (fun h => nomatch h)).2.2.2.2 rfl⟩

/-- C9: a non-string key, or a key whose stripped form is empty, makes get,
set and delete raise the ValueError at once, before Start, liveness polling
or any request, with the state unchanged; and a valid key is sent stripped
as the name parameter of the one request each operation issues. -/
theorem c9_key_validation (st : SessionState) (env : OpEnv) (s : String)
    (pid : Nat) (w : Value) :
    (getitem st env .nonString = (st, [], .err (.valueError keyErrMsg)) ∧
     setitem st env .nonString (.scalar w) = (st, [], .err (.valueError keyErrMsg)) ∧
     delitem st env .nonString = (st, [], .err (.valueError keyErrMsg))) ∧
    ((pyStrip s).length = 0 →
      getitem st env (.str s) = (st, [], .err (.valueError keyErrMsg)) ∧
      setitem st env (.str s) (.scalar w) = (st, [], .err (.valueError keyErrMsg)) ∧
      delitem st env (.str s) = (st, [], .err (.valueError keyErrMsg))) ∧
    (st.workerProcess = some pid → env.pollExit = none → (pyStrip s).length ≠ 0 →
      (getitem st env (.str s)).2.1 = [⟨"POST", "get", some (pyStrip s), none⟩] ∧
      (setitem st env (.str s) (.scalar w)).2.1 =
        [⟨"PUT", "set", some (pyStrip s), some (serializeValueToJSON w)⟩] ∧
      (delitem st env (.str s)).2.1 =
        [⟨"DELETE", "delete", some (pyStrip s), none⟩]) := by
  refine ⟨⟨rfl, rfl, rfl⟩, ?_, ?_⟩
  · intro h
    exact ⟨by simp [getitem, h], by simp [setitem, h], by simp [delitem, h]⟩
  · intro hwp hpoll hs
    have hstart : startSession st env.start = (st, .ok ()) := by
      simp [startSession, hwp]
    have hpollok : pollWorkerProcess st env.pollExit = .ok () := by
      simp [pollWorkerProcess, hwp, hpoll]
    refine ⟨?_, ?_, ?_⟩
    · cases hr : (processResponse true env.resp).result <;>
        simp [getitem, hstart, hpollok, hs, hr]
    · cases hr : (processResponse false env.resp).result <;>
        simp [setitem, hstart, hpollok, hs, hr]
    · cases hr : (processResponse false env.resp).result <;>
        simp [delitem, hstart, hpollok, hs, hr]

/-- C9 witness: a non-string key raises at once with no request, the key
holding a single vertical tab strips to empty and raises the ValueError,
the key " x " is stripped to x in the name parameter of the get request,
and a key with a trailing no-break space is stripped of it. -/
theorem c9_witness :
    getitem ⟨some 1, true⟩
      ⟨⟨.spawned 1, []⟩, none, ⟨200, "OK", none, none, false⟩⟩ .nonString =
      (⟨some 1, true⟩, [], .err (.valueError keyErrMsg)) ∧
    getitem ⟨some 1, true⟩
      ⟨⟨.spawned 1, []⟩, none, ⟨200, "OK", none, none, false⟩⟩ (.str "\u000B") =
      (⟨some 1, true⟩, [], .err (.valueError keyErrMsg)) ∧
    (getitem ⟨some 1, true⟩
      ⟨⟨.spawned 1, []⟩, none, ⟨200, "OK", none, none, false⟩⟩ (.str " x ")).2.1 =
      [⟨"POST", "get", some (pyStrip " x "), none⟩] ∧
    (getitem ⟨some 1, true⟩
      ⟨⟨.spawned 1, []⟩, none, ⟨200, "OK", none, none, false⟩⟩ (.str "a\u00A0")).2.1 =
      [⟨"POST", "get", some "a", none⟩] :=
  ⟨(c9_key_validation ⟨some 1, true⟩
      ⟨⟨.spawned 1, []⟩, none, ⟨200, "OK", none, none, false⟩⟩ " x " 1 .vnull).1.1,
   ((c9_key_validation ⟨some 1, true⟩
      ⟨⟨.spawned 1, []⟩, none, ⟨200, "OK", none, none, false⟩⟩ "\u000B" 1 .vnull).2.1
      (by decide)).1,
   ((c9_key_validation ⟨some 1, true⟩
      ⟨⟨.spawned 1, []⟩, none, ⟨200, "OK", none, none, false⟩⟩ " x " 1 .vnull).2.2
      rfl rfl (by decide)).1,
   by
     have hs : pyStrip "a\u00A0" = "a" := by decide
     have h := ((c9_key_validation ⟨some 1, true⟩
       ⟨⟨.spawned 1, []⟩, none, ⟨200, "OK", none, none, false⟩⟩ "a\u00A0" 1 .vnull).2.2
       rfl rfl (by decide)).1
     rw [hs] at h
     exact h⟩
